import Mathlib

/-!
Verification of the `osascript` crate (src/lib.rs): a shallow embedding of
its request/response protocol for running JavaScript through the macOS
`osascript` interpreter.

The embedding models:

* JSON values (`Json`) and their compact serde-style serialization
  (`Json.serialize`).  Numbers are modelled as integers; the claims under
  verification never depend on floating-point serialization.
* Rust's `String::from_utf8` as a strict UTF-8 validator/decoder over byte
  lists (`string_from_utf8`), including the `FromUtf8Error` display text used
  by the crate's `From<FromUtf8Error> for Error` conversion.
* The crate's `Error` enum, `JavaScript` struct, `EmptyParams`, `wrap_code`,
  `execute` and `execute_with_params`.

The external process boundary (`process::Command::new("osascript")...output()`)
is modelled as a function argument `run : String → Except String Output`:
it either fails to spawn (an `io::Error`, carried as its message string) or
produces an `Output` (exit-status success flag plus captured stdout/stderr
byte streams), exactly the information the Rust code consumes.  The generic
serde deserializer `serde_json::from_slice::<D>` is likewise a function
argument `from_slice : List Nat → Except String D`, since `D` is an arbitrary
`DeserializeOwned` type in the source.  A caller value of a `Serialize` type
is represented by the outcome of serializing it: `Except String Json`
(`.error m` models a value whose serde serialization fails with message `m`).

`execute_with_params` additionally returns the list of program texts handed
to the process boundary, so that "no process is spawned" is expressible.
-/

namespace Osascript

/-! ## JSON values and serialization (model of serde_json output) -/

inductive Json where
| null : Json
| bool (b : Bool) : Json
| num (n : Int) : Json
| str (s : String) : Json
| arr (items : List Json) : Json
| obj (fields : List (String × Json)) : Json

def hexDigit (n : Nat) : Char :=
  if n < 10 then Char.ofNat (48 + n) else Char.ofNat (87 + n)

/-- serde_json string escaping: quote, backslash, and the control characters
below 0x20 are escaped (`\b \f \n \r \t`, otherwise `\u00XX`). -/
def escapeChar (c : Char) : String :=
  if c = '"' then "\\\""
  else if c = '\\' then "\\\\"
  else if c.toNat = 8 then "\\b"
  else if c.toNat = 12 then "\\f"
  else if c = '\n' then "\\n"
  else if c = '\r' then "\\r"
  else if c = '\t' then "\\t"
  else if c.toNat < 32 then
    "\\u00" ++ String.mk [hexDigit (c.toNat / 16), hexDigit (c.toNat % 16)]
  else String.mk [c]

def escapeString (s : String) : String :=
  String.join (s.data.map escapeChar)

def quoteString (s : String) : String :=
  "\"" ++ escapeString s ++ "\""

mutual

/-- Compact serialization, as produced by `serde_json::to_writer`. -/
def Json.serialize : Json → String
  | .null => "null"
  | .bool true => "true"
  | .bool false => "false"
  | .num n => toString n
  | .str s => quoteString s
  | .arr items => "[" ++ serializeItems items ++ "]"
  | .obj fields => "\x7b" ++ serializeFields fields ++ "\x7d"

def serializeItems : List Json → String
  | [] => ""
  | [x] => x.serialize
  | x :: y :: rest => x.serialize ++ "," ++ serializeItems (y :: rest)

def serializeFields : List (String × Json) → String
  | [] => ""
  | [(k, v)] => quoteString k ++ ":" ++ v.serialize
  | (k, v) :: f :: rest =>
    quoteString k ++ ":" ++ v.serialize ++ "," ++ serializeFields (f :: rest)

end

/-! ## UTF-8 (model of `String::from_utf8` and `FromUtf8Error`) -/

def encodeChar (c : Char) : List Nat :=
  let n := c.toNat
  if n < 0x80 then [n]
  else if n < 0x800 then [0xC0 + n / 64, 0x80 + n % 64]
  else if n < 0x10000 then [0xE0 + n / 4096, 0x80 + (n / 64) % 64, 0x80 + n % 64]
  else [0xF0 + n / 262144, 0x80 + (n / 4096) % 64, 0x80 + (n / 64) % 64, 0x80 + n % 64]

/-- The UTF-8 byte encoding of a string, as a list of byte values. -/
def utf8Encode (s : String) : List Nat :=
  (s.data.map encodeChar).flatten

/-- Model of `std::string::FromUtf8Error` (via its inner `Utf8Error`):
the length of the valid prefix and, when the error is not a truncated
final sequence, the length of the offending byte sequence. -/
structure FromUtf8Error where
  validUpTo : Nat
  errorLen : Option Nat
deriving DecidableEq, Repr

/-- The `Display` text of `FromUtf8Error` in Rust's standard library. -/
def FromUtf8Error.display (e : FromUtf8Error) : String :=
  match e.errorLen with
  | some n =>
    "invalid utf-8 sequence of " ++ toString n ++ " bytes from index " ++
      toString e.validUpTo
  | none => "incomplete utf-8 byte sequence from index " ++ toString e.validUpTo

def isCont (b : Nat) : Bool := 0x80 ≤ b && b < 0xC0

/-- Strict UTF-8 decoding of a byte list starting at byte index `i`
(rejecting overlong forms, surrogates and out-of-range code points, as
Rust's validator does). -/
def utf8DecodeFrom : List Nat → Nat → Except FromUtf8Error (List Char)
  | [], _ => .ok []
  | b :: rest, i =>
    if b < 0x80 then
      (utf8DecodeFrom rest (i + 1)).map (Char.ofNat b :: ·)
    else if b < 0xC2 then .error ⟨i, some 1⟩
    else if b < 0xE0 then
      match rest with
      | [] => .error ⟨i, none⟩
      | b1 :: rest1 =>
        if isCont b1 then
          (utf8DecodeFrom rest1 (i + 2)).map
            (Char.ofNat ((b - 0xC0) * 64 + (b1 - 0x80)) :: ·)
        else .error ⟨i, some 1⟩
    else if b < 0xF0 then
      match rest with
      | [] => .error ⟨i, none⟩
      | b1 :: rest1 =>
        if (if b = 0xE0 then 0xA0 else 0x80) ≤ b1 &&
            b1 ≤ (if b = 0xED then 0x9F else 0xBF) then
          match rest1 with
          | [] => .error ⟨i, none⟩
          | b2 :: rest2 =>
            if isCont b2 then
              (utf8DecodeFrom rest2 (i + 3)).map
                (Char.ofNat ((b - 0xE0) * 4096 + (b1 - 0x80) * 64 + (b2 - 0x80)) :: ·)
            else .error ⟨i, some 2⟩
        else .error ⟨i, some 1⟩
    else if b < 0xF5 then
      match rest with
      | [] => .error ⟨i, none⟩
      | b1 :: rest1 =>
        if (if b = 0xF0 then 0x90 else 0x80) ≤ b1 &&
            b1 ≤ (if b = 0xF4 then 0x8F else 0xBF) then
          match rest1 with
          | [] => .error ⟨i, none⟩
          | b2 :: rest2 =>
            if isCont b2 then
              match rest2 with
              | [] => .error ⟨i, none⟩
              | b3 :: rest3 =>
                if isCont b3 then
                  (utf8DecodeFrom rest3 (i + 4)).map
                    (Char.ofNat ((b - 0xF0) * 262144 + (b1 - 0x80) * 4096 +
                      (b2 - 0x80) * 64 + (b3 - 0x80)) :: ·)
                else .error ⟨i, some 3⟩
            else .error ⟨i, some 2⟩
        else .error ⟨i, some 1⟩
    else .error ⟨i, some 1⟩

/-- Model of `String::from_utf8`. -/
def string_from_utf8 (bytes : List Nat) : Except FromUtf8Error String :=
  (utf8DecodeFrom bytes 0).map String.mk

/-! ## The crate's data model -/

/-- The crate's `Error` enum (src/lib.rs lines 69-74): `Io(io::Error)`,
`Json(serde_json::Error)`, `Script(String)`.  The payloads of the first two
are carried as their message strings. -/
inductive Error where
| Io (msg : String) : Error
| Json (msg : String) : Error
| Script (msg : String) : Error
deriving DecidableEq, Repr

/-- Which of the three `Error` variants a value is: 0 for `Io`, 1 for `Json`,
2 for `Script`.  This is the information a caller can extract by matching on
the enum. -/
def Error.kind : Error → Nat
  | .Io _ => 0
  | .Json _ => 1
  | .Script _ => 2

/-- The diagnostic detail carried by an `Error` value. -/
def Error.detail : Error → String
  | .Io m => m
  | .Json m => m
  | .Script m => m

/-- The crate's `JavaScript` struct: holds the raw code body text. -/
structure JavaScript where
  code : String
deriving DecidableEq, Repr

/-- `JavaScript::new`: copies the given code into a fresh script value. -/
def JavaScript.new (code : String) : JavaScript := ⟨code⟩

/-- Serialization outcome of the `EmptyParams {}` struct: serde serializes
the empty field-less struct as the empty JSON object. -/
def EmptyParams : Except String Json := .ok (.obj [])

/-- `wrap_code` (src/lib.rs lines 122-128).  A caller value of a `Serialize`
type is represented by its serialization outcome `params`: `.ok j` when
`serde_json::to_writer` produces the JSON value `j`, `.error m` when it fails
with a `serde_json::Error` whose message is `m` (converted to `Error::Json`
by the `From` impl at lines 87-91).  The `write!` calls to the in-memory
buffer cannot fail, and the final `String::from_utf8(buf)` cannot fail either
since every part written is valid UTF-8, so no other error arises. -/
def wrap_code (code : String) (params : Except String Json) : Except Error String :=
  match params with
  | .error m => .error (.Json m)
  | .ok j =>
    .ok ("var $params = " ++ j.serialize ++
      ";JSON.stringify((function() \x7b" ++ code ++ ";return null;\x7d)());")

/-- The captured result of the child process, as consumed by the crate:
`output.status.success()`, `output.stdout`, `output.stderr`. -/
structure Output where
  success : Bool
  stdout : List Nat
  stderr : List Nat
deriving DecidableEq, Repr

/-- `JavaScript::execute_with_params` (src/lib.rs lines 144-159).

`run` is the process boundary: handed the wrapped program text, it either
fails to spawn (`.error ioMsg`, an `io::Error` converted to `Error::Io`) or
yields the child's `Output`.  ` from_slice` is the serde deserializer of the
caller's requested type `D`.  Besides the result, the function returns the
list of program texts actually handed to `run`, so that claims about
processes being spawned are expressible: wrap failure short-circuits via `?`
before `process::Command` is reached, hence the empty trace there. -/
def JavaScript.execute_with_params {D : Type} (js : JavaScript)
    (params : Except String Json) (run : String → Except String Output)
    ( from_slice : List Nat → Except String D) :
    Except Error D × List String :=
  match wrap_code js.code params with
  | .error e => (.error e, [])
  | .ok wrapped =>
    match run wrapped with
    | .error ioMsg => (.error (.Io ioMsg), [wrapped])
    | .ok output =>
      if output.success then
        match from_slice output.stdout with
        | .ok v => (.ok v, [wrapped])
        | .error m => (.error (.Json m), [wrapped])
      else
        match string_from_utf8 output.stderr with
        | .ok msg => (.error (.Script msg), [wrapped])
        | .error e => (.error (.Script ("UTF-8 Error: " ++ e.display)), [wrapped])

/-- `JavaScript::execute` (src/lib.rs lines 139-141): delegates to
`execute_with_params(EmptyParams {})`. -/
def JavaScript.execute {D : Type} (js : JavaScript)
    (run : String → Except String Output)
    ( from_slice : List Nat → Except String D) :
    Except Error D × List String :=
  js.execute_with_params EmptyParams run from_slice

/-- State-passing form of `execute_with_params`: the Rust method takes
`&self`, a shared reference, and its body contains no mutation of
`self.code` (nor could it through `&self`), so the receiver after the call
is the receiver before the call.  Returned explicitly so that frame claims
about the script value are expressible. -/
def JavaScript.execute_with_params_st {D : Type} (js : JavaScript)
    (params : Except String Json) (run : String → Except String Output)
    ( from_slice : List Nat → Except String D) :
    (Except Error D × List String) × JavaScript :=
  (js.execute_with_params params run from_slice, js)

/-- State-passing form of `execute`; see `execute_with_params_st`. -/
def JavaScript.execute_st {D : Type} (js : JavaScript)
    (run : String → Except String Output)
    ( from_slice : List Nat → Except String D) :
    (Except Error D × List String) × JavaScript :=
  (js.execute run from_slice, js)

/-! ## A concrete JSON deserializer

The theorems below quantify over the serde deserializer of the requested
type, since `D : DeserializeOwned` is an arbitrary type parameter in the
source.  For concrete witnesses we instantiate it with an executable JSON
parser (the `serde_json::Value` deserializer, with simplified error
messages), written with explicit fuel so that it evaluates by `rfl`. -/

def isWsChar (c : Char) : Bool := c = ' ' || c = '\t' || c = '\n' || c = '\r'

def skipWs : List Char → List Char
  | [] => []
  | c :: rest => if isWsChar c then skipWs rest else c :: rest

def isDigitChar (c : Char) : Bool := '0' ≤ c && c ≤ '9'

def parseDigits : List Char → Option (Nat × List Char)
  | [] => none
  | c :: rest =>
    if isDigitChar c then
      match parseDigits rest with
      | some (n, rest1) =>
        some ((c.toNat - 48) * 10 ^ (rest.length - rest1.length) + n, rest1)
      | none => some (c.toNat - 48, rest)
    else none

def hexVal (c : Char) : Option Nat :=
  if '0' ≤ c && c ≤ '9' then some (c.toNat - 48)
  else if 'a' ≤ c && c ≤ 'f' then some (c.toNat - 87)
  else if 'A' ≤ c && c ≤ 'F' then some (c.toNat - 55)
  else none

def parseStringBody : Nat → List Char → Except String (String × List Char)
  | 0, _ => .error "recursion limit exceeded"
  | _, [] => .error "unexpected end of input"
  | fuel + 1, c :: rest =>
    if c = '"' then .ok ("", rest)
    else if c = '\\' then
      match rest with
      | [] => .error "unexpected end of input"
      | e :: rest1 =>
        let decoded : Except String (Char × List Char) :=
          if e = '"' then .ok ('"', rest1)
          else if e = '\\' then .ok ('\\', rest1)
          else if e = '/' then .ok ('/', rest1)
          else if e = 'b' then .ok (Char.ofNat 8, rest1)
          else if e = 'f' then .ok (Char.ofNat 12, rest1)
          else if e = 'n' then .ok ('\n', rest1)
          else if e = 'r' then .ok ('\r', rest1)
          else if e = 't' then .ok ('\t', rest1)
          else if e = 'u' then
            match rest1 with
            | h1 :: h2 :: h3 :: h4 :: rest2 =>
              match hexVal h1, hexVal h2, hexVal h3, hexVal h4 with
              | some v1, some v2, some v3, some v4 =>
                .ok (Char.ofNat (v1 * 4096 + v2 * 256 + v3 * 16 + v4), rest2)
              | _, _, _, _ => .error "invalid escape"
            | _ => .error "unexpected end of input"
          else .error "invalid escape"
        match decoded with
        | .error m => .error m
        | .ok (ch, rest2) =>
          match parseStringBody fuel rest2 with
          | .ok (s, rest3) => .ok (String.mk (ch :: s.data), rest3)
          | .error m => .error m
    else
      match parseStringBody fuel rest with
      | .ok (s, rest2) => .ok (String.mk (c :: s.data), rest2)
      | .error m => .error m

mutual

def parseValue : Nat → List Char → Except String (Json × List Char)
  | 0, _ => .error "recursion limit exceeded"
  | _, [] => .error "EOF while parsing a value"
  | fuel + 1, c :: rest =>
    if c = 'n' then
      match rest with
      | 'u' :: 'l' :: 'l' :: rest1 => .ok (.null, rest1)
      | _ => .error "expected ident"
    else if c = 't' then
      match rest with
      | 'r' :: 'u' :: 'e' :: rest1 => .ok (.bool true, rest1)
      | _ => .error "expected ident"
    else if c = 'f' then
      match rest with
      | 'a' :: 'l' :: 's' :: 'e' :: rest1 => .ok (.bool false, rest1)
      | _ => .error "expected ident"
    else if c = '"' then
      match parseStringBody (rest.length + 1) rest with
      | .ok (s, rest1) => .ok (.str s, rest1)
      | .error m => .error m
    else if c = '-' then
      match parseDigits rest with
      | some (n, rest1) => .ok (.num (-(n : Int)), rest1)
      | none => .error "invalid number"
    else if isDigitChar c then
      match parseDigits (c :: rest) with
      | some (n, rest1) => .ok (.num (n : Int), rest1)
      | none => .error "invalid number"
    else if c = '[' then
      match skipWs rest with
      | ']' :: rest1 => .ok (.arr [], rest1)
      | rest1 => parseArrayItems fuel rest1
    else if c = '\x7b' then
      match skipWs rest with
      | '\x7d' :: rest1 => .ok (.obj [], rest1)
      | rest1 => parseObjectFields fuel rest1
    else .error "expected value"

def parseArrayItems : Nat → List Char → Except String (Json × List Char)
  | 0, _ => .error "recursion limit exceeded"
  | fuel + 1, input =>
    match parseValue fuel (skipWs input) with
    | .error m => .error m
    | .ok (v, rest) =>
      match skipWs rest with
      | ',' :: rest1 =>
        match parseArrayItems fuel rest1 with
        | .ok (.arr items, rest2) => .ok (.arr (v :: items), rest2)
        | .ok _ => .error "expected value"
        | .error m => .error m
      | ']' :: rest1 => .ok (.arr [v], rest1)
      | _ => .error "expected comma or bracket"

def parseObjectFields : Nat → List Char → Except String (Json × List Char)
  | 0, _ => .error "recursion limit exceeded"
  | fuel + 1, input =>
    match skipWs input with
    | '"' :: rest =>
      match parseStringBody (rest.length + 1) rest with
      | .error m => .error m
      | .ok (k, rest1) =>
        match skipWs rest1 with
        | ':' :: rest2 =>
          match parseValue fuel (skipWs rest2) with
          | .error m => .error m
          | .ok (v, rest3) =>
            match skipWs rest3 with
            | ',' :: rest4 =>
              match parseObjectFields fuel rest4 with
              | .ok (.obj fields, rest5) => .ok (.obj ((k, v) :: fields), rest5)
              | .ok _ => .error "expected value"
              | .error m => .error m
            | '\x7d' :: rest4 => .ok (.obj ((k, v) :: []), rest4)
            | _ => .error "expected comma or brace"
        | _ => .error "expected colon"
    | _ => .error "key must be a string"

end

/-- Parse a whole string as one JSON value with nothing but whitespace
after it. -/
def json_from_str (s : String) : Except String Json :=
  match parseValue (s.length + 1) (skipWs s.data) with
  | .error m => .error m
  | .ok (v, rest) =>
    match skipWs rest with
    | [] => .ok v
    | _ => .error "trailing characters"

/-- `serde_json::from_slice::<serde_json::Value>`: decode the bytes as UTF-8,
then parse them as a single JSON value. -/
def json_from_slice (bytes : List Nat) : Except String Json :=
  match string_from_utf8 bytes with
  | .error _ => .error "invalid unicode code point"
  | .ok s => json_from_str s

def lookupField : List (String × Json) → String → Option Json
  | [], _ => none
  | (k, v) :: rest, key => if k = key then some v else lookupField rest key

/-- The deserializer of the doc-example's `AlertResult` struct: an object
whose field `buttonReturned` (renamed to `button`) is a string. -/
def alertResult_from_slice (bytes : List Nat) : Except String String :=
  match json_from_slice bytes with
  | .error m => .error m
  | .ok (.obj fields) =>
    match lookupField fields "buttonReturned" with
    | some (.str s) => .ok s
    | _ => .error "missing field buttonReturned"
  | .ok _ => .error "invalid type: expected a map"

/-! ## The three textual components of a wrapped program -/

/-- The variable-binding statement at the top of the wrapped program. -/
def paramBinding (j : Json) : String := "var $params = " ++ j.serialize ++ ";"

/-- The text between the binding statement and the code body: it opens the
result-serializing expression and the function wrapper around the body. -/
def stringifyOpen : String := "JSON.stringify((function() \x7b"

/-- The text after the code body: it appends `return null`, closes the
function wrapper, invokes it, and completes the serializing expression. -/
def postamble : String := ";return null;\x7d)());"

/-! ## Claims -/

/-- C2: for every code body and every parameter value that serializes to the
JSON value `j`, the wrapped program is exactly the `$params` binding
statement, then the caller's code body verbatim and unmodified inside a
function wrapper, then the postamble completing the expression that
serializes the function's returned value to JSON.  (The serializing call
`JSON.stringify(` textually opens just before the function wrapper and is
completed by the postamble.) -/
theorem C2_wrapped_program_shape (code : String) (j : Json) :
    wrap_code code (.ok j) = .ok (paramBinding j ++ stringifyOpen ++ code ++ postamble) := by
  have h : paramBinding j ++ stringifyOpen
      = "var $params = " ++ j.serialize ++ ";JSON.stringify((function() \x7b" := by
    simp only [paramBinding, stringifyOpen, String.append_assoc]
    rfl
  rw [h]
  rfl

/-- C1: round-trip law.  For every serializable parameter value (one whose
wrapping succeeds) and every code body whose execution, via a correctly
functioning interpreter, prints the JSON serialization of the returned value
`v` to standard output and exits successfully, the full pipeline yields
exactly `v` re-encoded then decoded through the JSON structured format:
the result is the requested type's deserializer applied to the encoding of
`v`, here its successful decoding `d`. -/
theorem C1_round_trip {D : Type} (js : JavaScript) (params : Except String Json)
    (run : String → Except String Output) ( from_slice : List Nat → Except String D)
    (v : Json) (errBytes : List Nat) (w : String) (d : D)
    (hw : wrap_code js.code params = .ok w)
    (hrun : run w = .ok ⟨true, utf8Encode v.serialize, errBytes⟩)
    (hdec : from_slice (utf8Encode v.serialize) = .ok d) :
    (js.execute_with_params params run from_slice).1 = .ok d := by
  simp [JavaScript.execute_with_params, hw, hrun, hdec]

/-- Witness for C1: the spec's concrete scenario, code body `return 40 + 2;`
with the interpreter printing `42`; decoding through the JSON value
deserializer yields the number 42. -/
theorem C1_round_trip_witness :
    ((JavaScript.new "return 40 + 2;").execute_with_params EmptyParams
      (fun _ => .ok ⟨true, utf8Encode (Json.num 42).serialize, []⟩)
      json_from_slice).1 = .ok (.num 42) :=
  C1_round_trip (JavaScript.new "return 40 + 2;") EmptyParams
    (fun _ => .ok ⟨true, utf8Encode (Json.num 42).serialize, []⟩)
    json_from_slice (.num 42) [] _ (.num 42) rfl rfl rfl

/-- C3: a code body with no explicit `return` yields a defined null result,
not a failure.  The wrapped program appends an explicit `return null` after
the body (first conjunct: the wrapped text ends with the body followed
immediately by `;return null;` and the closing of the wrapper), so a correct
interpreter prints the one JSON value `null` — the serialization of the null
result is the single valid JSON text `"null"` (second conjunct) — and
decoding stdout through the JSON value deserializer succeeds with the null
value (third conjunct). -/
theorem C3_no_return_yields_null (js : JavaScript) (params : Except String Json)
    (run : String → Except String Output) (errBytes : List Nat) (w : String)
    (hw : wrap_code js.code params = .ok w)
    (hrun : run w = .ok ⟨true, utf8Encode (Json.serialize .null), errBytes⟩) :
    (∃ pre : String, w = pre ++ js.code ++ ";return null;\x7d)());") ∧
    Json.serialize .null = "null" ∧
    (js.execute_with_params params run json_from_slice).1 = .ok .null := by
  refine ⟨?_, rfl, ?_⟩
  · match params, hw with
    | .ok j, hw =>
      exact ⟨"var $params = " ++ j.serialize ++ ";JSON.stringify((function() \x7b",
        (Except.ok.inj hw).symm⟩
  · simp [JavaScript.execute_with_params, hw, hrun]
    rfl

/-- Witness for C3: a body that only assigns a variable and never returns;
the pipeline produces `.ok Json.null`, not an error. -/
theorem C3_no_return_yields_null_witness :
    (∃ pre : String, ("var $params = \x7b\x7d;JSON.stringify((function() " ++
        "\x7bvar x = 1;;return null;\x7d)());")
      = pre ++ (JavaScript.new "var x = 1;").code ++ ";return null;\x7d)());") ∧
    Json.serialize .null = "null" ∧
    ((JavaScript.new "var x = 1;").execute_with_params EmptyParams
      (fun _ => .ok ⟨true, utf8Encode (Json.serialize .null), []⟩)
      json_from_slice).1 = .ok .null :=
  C3_no_return_yields_null (JavaScript.new "var x = 1;") EmptyParams
    (fun _ => .ok ⟨true, utf8Encode (Json.serialize .null), []⟩) [] _ rfl rfl

/-- C4: when the parameter value's JSON serialization fails (with message
`m`), `execute_with_params` returns the JSON error kind carrying `m`, and the
trace of programs handed to the process boundary is empty — no external
process is spawned.  The outcome is moreover independent of the process
boundary entirely (second conjunct): the failure is fully local. -/
theorem C4_serialization_failure_is_local {D : Type} (js : JavaScript) (m : String)
    (run run' : String → Except String Output)
    ( from_slice : List Nat → Except String D) :
    js.execute_with_params (.error m) run from_slice = (.error (.Json m), []) ∧
    js.execute_with_params (.error m) run from_slice
      = js.execute_with_params (.error m) run' from_slice :=
  ⟨rfl, rfl⟩

/-- C5: whenever the child process exits with a non-zero status and its
captured standard-error bytes are valid UTF-8, the pipeline returns the
script-reported failure kind (`Error::Script`, kind 2 — not the I/O kind 0)
whose message is exactly the UTF-8 decoding of those bytes. -/
theorem C5_nonzero_exit_reports_stderr {D : Type} (js : JavaScript)
    (params : Except String Json) (run : String → Except String Output)
    ( from_slice : List Nat → Except String D) (w : String)
    (outBytes errBytes : List Nat) (msg : String)
    (hw : wrap_code js.code params = .ok w)
    (hrun : run w = .ok ⟨false, outBytes, errBytes⟩)
    (hdec : string_from_utf8 errBytes = .ok msg) :
    (js.execute_with_params params run from_slice).1 = .error (.Script msg) ∧
    (Error.Script msg).kind = 2 := by
  refine ⟨?_, rfl⟩
  simp [JavaScript.execute_with_params, hw, hrun, hdec]

/-- Witness for C5: a script whose interpreter run fails, with the
diagnostic `Error: boom` on standard error. -/
theorem C5_nonzero_exit_reports_stderr_witness :
    (((JavaScript.new "throw new Error('boom');").execute_with_params EmptyParams
      (fun _ => .ok ⟨false, [], utf8Encode "Error: boom"⟩)
      json_from_slice).1 = .error (.Script "Error: boom")) ∧
    (Error.Script "Error: boom").kind = 2 :=
  C5_nonzero_exit_reports_stderr (JavaScript.new "throw new Error('boom');")
    EmptyParams (fun _ => .ok ⟨false, [], utf8Encode "Error: boom"⟩)
    json_from_slice _ [] (utf8Encode "Error: boom") "Error: boom" rfl rfl rfl

/-- C6: whenever the child process exits successfully but the requested
type's deserializer rejects the standard-output bytes (not valid JSON, or a
shape mismatch, message `m`), the pipeline returns the JSON error kind
(`Error::Json`, kind 1) — a kind distinct from the script-reported kind
(`Error::Script`, kind 2). -/
theorem C6_output_mismatch_is_json_error {D : Type} (js : JavaScript)
    (params : Except String Json) (run : String → Except String Output)
    ( from_slice : List Nat → Except String D) (w : String)
    (outBytes errBytes : List Nat) (m : String)
    (hw : wrap_code js.code params = .ok w)
    (hrun : run w = .ok ⟨true, outBytes, errBytes⟩)
    (hdec : from_slice outBytes = .error m) :
    (js.execute_with_params params run from_slice).1 = .error (.Json m) ∧
    (Error.Json m).kind = 1 ∧ (Error.Script m).kind = 2 := by
  refine ⟨?_, rfl, rfl⟩
  simp [JavaScript.execute_with_params, hw, hrun, hdec]

/-- Witness for C6: the spec's scenario — the caller expects an object with
field `buttonReturned` but the script returns the bare number 42; the
result is the JSON error kind with the shape-mismatch message. -/
theorem C6_output_mismatch_is_json_error_witness :
    (((JavaScript.new "return 42;").execute_with_params EmptyParams
      (fun _ => .ok ⟨true, utf8Encode "42", []⟩)
      alertResult_from_slice).1 = .error (.Json "invalid type: expected a map")) ∧
    (Error.Json "invalid type: expected a map").kind = 1 ∧
    (Error.Script "invalid type: expected a map").kind = 2 :=
  C6_output_mismatch_is_json_error (JavaScript.new "return 42;") EmptyParams
    (fun _ => .ok ⟨true, utf8Encode "42", []⟩) alertResult_from_slice
    _ (utf8Encode "42") [] "invalid type: expected a map" rfl rfl rfl

/-- C7 counterexample: the claim says the error type has four mutually
exclusive kinds that callers can all distinguish programmatically from the
returned value.  The `Error` enum has only three variants (`Io`, `Json`,
`Script`): an input-serialization failure and an output-deserialization
failure with the same underlying message produce literally equal returned
values — both `Error::Json("expected value")` here (the first execution's
parameter serialization fails; the second's parameters are fine but the
interpreter's stdout `x` is not valid JSON) — so the two spec-level kinds
cannot be told apart. -/
theorem C7_four_kinds_counterexample :
    ((JavaScript.new "return $params.x;").execute_with_params (.error "expected value")
        (fun _ => .ok ⟨true, utf8Encode "x", []⟩) json_from_slice).1
      = .error (.Json "expected value") ∧
    ((JavaScript.new "return $params.x;").execute_with_params (.ok (.obj []))
        (fun _ => .ok ⟨true, utf8Encode "x", []⟩) json_from_slice).1
      = .error (.Json "expected value") :=
  ⟨rfl, rfl⟩

/-- C7 amended: the error type is a taxonomy of three mutually exclusive
kinds — transport/IO (`Io`, kind 0), JSON failure (`Json`, kind 1) and
script-reported failure (`Script`, kind 2) — each carrying its diagnostic
message; callers can distinguish these three programmatically, but both
input-serialization failures (fourth conjunct) and output-deserialization
failures (fifth conjunct) are returned as the single `Json` kind. -/
theorem C7_three_kind_taxonomy :
    (∀ m : String, (Error.Io m).kind = 0 ∧ (Error.Io m).detail = m) ∧
    (∀ m : String, (Error.Json m).kind = 1 ∧ (Error.Json m).detail = m) ∧
    (∀ m : String, (Error.Script m).kind = 2 ∧ (Error.Script m).detail = m) ∧
    (∀ (D : Type) (js : JavaScript) (m : String)
        (run : String → Except String Output)
        ( from_slice : List Nat → Except String D),
      (js.execute_with_params (.error m) run from_slice).1 = .error (.Json m)) ∧
    (∀ (D : Type) (js : JavaScript) (j : Json) (outBytes errBytes : List Nat)
        (m : String),
      (js.execute_with_params (.ok j) (fun _ => .ok ⟨true, outBytes, errBytes⟩)
        (fun _ => (.error m : Except String D))).1 = .error (.Json m)) :=
  ⟨fun _ => ⟨rfl, rfl⟩, fun _ => ⟨rfl, rfl⟩, fun _ => ⟨rfl, rfl⟩,
    fun _ _ _ _ _ => rfl, fun _ _ _ _ _ _ => rfl⟩

/-- C8 counterexample: the claim says that on a non-zero exit with invalid
UTF-8 standard-error bytes the returned failure is the transport/IO kind
(`Error::Io`).  On the concrete stderr byte `0xFF` the code instead returns
the script-reported kind: `From<FromUtf8Error> for Error` (src/lib.rs lines
93-97) converts the decoding failure to
`Error::Script("UTF-8 Error: ...")`, not to `Error::Io`. -/
theorem C8_invalid_utf8_counterexample :
    ((JavaScript.new "x.y();").execute_with_params EmptyParams
        (fun _ => .ok ⟨false, [], [0xFF]⟩) json_from_slice).1
      = .error (.Script "UTF-8 Error: invalid utf-8 sequence of 1 bytes from index 0") :=
  rfl

/-- C8 amended: whenever the child process exits non-zero and its captured
standard-error bytes are not valid UTF-8, the returned failure is the
script-reported kind (`Error::Script`, kind 2 — not the transport/IO kind
0), and its message states the encoding problem: `UTF-8 Error: ` followed
by the decoding error's own description; the stderr bytes are never
silently truncated or replaced with substitute characters. -/
theorem C8_invalid_utf8_is_script_error {D : Type} (js : JavaScript)
    (params : Except String Json) (run : String → Except String Output)
    ( from_slice : List Nat → Except String D) (w : String)
    (outBytes errBytes : List Nat) (e : FromUtf8Error)
    (hw : wrap_code js.code params = .ok w)
    (hrun : run w = .ok ⟨false, outBytes, errBytes⟩)
    (hdec : string_from_utf8 errBytes = .error e) :
    (js.execute_with_params params run from_slice).1
      = .error (.Script ("UTF-8 Error: " ++ e.display)) ∧
    (Error.Script ("UTF-8 Error: " ++ e.display)).kind = 2 := by
  refine ⟨?_, rfl⟩
  simp [JavaScript.execute_with_params, hw, hrun, hdec]

/-- Witness for the amended C8: stderr consisting of the single byte `0xFF`
(an invalid UTF-8 sequence of length 1 at index 0). -/
theorem C8_invalid_utf8_is_script_error_witness :
    (((JavaScript.new "x.y();").execute_with_params EmptyParams
      (fun _ => .ok ⟨false, [], [0xFF]⟩) json_from_slice).1
      = .error (.Script ("UTF-8 Error: " ++
          FromUtf8Error.display ⟨0, some 1⟩))) ∧
    (Error.Script ("UTF-8 Error: " ++ FromUtf8Error.display ⟨0, some 1⟩)).kind = 2 :=
  C8_invalid_utf8_is_script_error (JavaScript.new "x.y();") EmptyParams
    (fun _ => .ok ⟨false, [], [0xFF]⟩) json_from_slice _ [] [0xFF]
    ⟨0, some 1⟩ rfl rfl rfl

/-- C9: executing a script mutates nothing.  The Rust methods take the
script by shared reference and never write to it; in the state-passing
embedding the script value after `execute_with_params` (and after
`execute`) is the script value before, and a second execution of the
returned script behaves identically to the first — same result, same
wrapped program handed to the interpreter. -/
theorem C9_script_is_reusable {D : Type} (js : JavaScript)
    (params : Except String Json) (run : String → Except String Output)
    ( from_slice : List Nat → Except String D) :
    (js.execute_with_params_st params run from_slice).2 = js ∧
    (js.execute_st run from_slice).2 = js ∧
    ((js.execute_with_params_st params run from_slice).2.execute_with_params_st
        params run from_slice).1
      = (js.execute_with_params_st params run from_slice).1 ∧
    ((js.execute_st run from_slice).2.execute_st run from_slice).1
      = (js.execute_st run from_slice).1 :=
  ⟨rfl, rfl, rfl, rfl⟩

/-- C10: `execute` is exactly `execute_with_params` applied to the empty
parameter struct (first conjunct), and in that case the wrapped program
still binds `$params`, to the empty JSON object `\x7b\x7d`, rather than
leaving it undefined (second conjunct). -/
theorem C10_execute_is_empty_params :
    (∀ (D : Type) (js : JavaScript) (run : String → Except String Output)
        ( from_slice : List Nat → Except String D),
      js.execute run from_slice = js.execute_with_params EmptyParams run from_slice) ∧
    (∀ js : JavaScript, wrap_code js.code EmptyParams
        = .ok ("var $params = \x7b\x7d;JSON.stringify((function() \x7b" ++
            js.code ++ ";return null;\x7d)());")) :=
  ⟨fun _ _ _ _ => rfl, fun _ => rfl⟩

end Osascript
